import Mathlib

/-!
Verification of the install orchestrator of action-setup-qt
(src/src/installer.ts) via a shallow embedding in Lean 4.

The embedding follows the TypeScript source line by line:

* Pure string computations (substring search, the version fragment, the
  module list of the generated installer script, the temp-dir fallback)
  are translated to Lean functions on String and List Char.
* External collaborators (the actions tool cache, the filesystem probe,
  external process invocations, the per-platform contract objects that
  live outside src/) are modelled at their interface boundary: the tool
  cache as an association list keyed by (tool, version, platform key),
  the filesystem as the set of existing file paths, each external
  process invocation as a success flag in an environment record, and a
  platform contract as a record of its pure naming and policy methods.
* The orchestrator getQt and the acquisition pipeline acquireQt are
  translated to state-passing functions that return the published
  outputs, the updated cache state and an event trace (which hooks ran,
  whether acquisition ran).
-/

namespace SetupQt

/-- Boolean test that the list `s` starts with the list `p`
(character-wise, used to model JavaScript substring search). -/
def startsWithChars : List Char → List Char → Bool
  | _, [] => true
  | [], _ :: _ => false
  | a :: as, b :: bs => (a == b) && startsWithChars as bs

/-- Boolean test that the list `sub` occurs contiguously inside `s`. -/
def containsChars : List Char → List Char → Bool
  | [], sub => startsWithChars [] sub
  | s@(_ :: t), sub => startsWithChars s sub || containsChars t sub

/-- Model of the JavaScript expression `s.includes(sub)`: substring
containment on strings. -/
def strIncludes (s sub : String) : Bool :=
  containsChars s.data sub.data

/-- Model of Node `path.join(a, b)` on a posix host for segments without
trailing separators, as used throughout installer.ts. -/
def pathJoin (a b : String) : String :=
  a ++ "/" ++ b

/-- Helper for `splitOnChar`: walks the remaining characters, `acc` holds
the (reversed) characters of the current segment. -/
def splitOnCharAux (sep : Char) : List Char → List Char → List String
  | [], acc => [String.mk acc.reverse]
  | c :: cs, acc =>
    if c = sep then String.mk acc.reverse :: splitOnCharAux sep cs []
    else splitOnCharAux sep cs (c :: acc)

/-- Model of the JavaScript expression `s.split(sep)` for a one-character
separator. In particular the empty string splits to `[""]`, exactly as in
JavaScript. -/
def splitOnChar (sep : Char) (s : String) : List String :=
  splitOnCharAux sep s.data []

/-- Model of installer.ts line 150, `this.version.replace(/\./g, "")`:
the version string with every dot removed. -/
def qtVerOf (version : String) : String :=
  String.mk (version.data.filter (fun c => c != '.'))

/-- Interface of the per-platform contract (src/platform.ts, IPlatform),
restricted to the pure naming and policy operations installer.ts
consults. The side-effecting hooks (runPreInstaller, runPostInstaller,
runInstaller, addExtraEnvVars) are modelled by the run trace and the
environment flags of the run model below. `platform` is the requested
platform key string, `installDirs` is the pair returned by
setupInstallDir (local dir, published dir). -/
structure IPlatform where
  platform : String
  qmakeName : String
  makeName : String
  installPlatform : String
  extraPackages : Option (List String)
  testFlags : String
  installDirs : String × String
deriving Repr, DecidableEq

/-- The five concrete platform contract classes installer.ts can select
(lines 28 to 46). -/
inductive PlatformKind
  | android
  | linux
  | mingw
  | msvc
  | macos
deriving Repr, DecidableEq

/-- Model of the constructor switch of installer.ts lines 28 to 46:
the host operating system (the value of `os.platform()`) combined with a
substring match on the requested platform key selects the contract, and
an unrecognized host throws. -/
def selectPlatform (hostOS platformKey : String) : Except String PlatformKind :=
  if hostOS = "linux" then
    .ok (if strIncludes platformKey "android" then .android else .linux)
  else if hostOS = "win32" then
    .ok (if strIncludes platformKey "mingw" then .mingw else .msvc)
  else if hostOS = "darwin" then
    .ok .macos
  else
    .error ("Install platform " ++ hostOS ++ " is not supported by this action")

/-- Model of Installer.initTempDir (installer.ts lines 100 to 116).
`runnerTemp` is the value of the RUNNER_TEMP environment variable
(empty when unset, matching the JavaScript falsiness test), `userProfile`
the value of USERPROFILE, and `platform` the argument the constructor
passes, which is the requested platform key. -/
def initTempDir (runnerTemp userProfile platform : String) : String :=
  if runnerTemp ≠ "" then runnerTemp
  else
    let baseLocation : String :=
      if platform = "win32" then
        (if userProfile ≠ "" then userProfile else "C:\\")
      else if platform = "darwin" then "/Users"
      else "/home"
    pathJoin (pathJoin baseLocation "actions") "temp"

/-- The instance state of the Installer class: the fields assigned by the
constructor (installer.ts lines 21 to 27). -/
structure Installer where
  version : String
  platform : IPlatform
  tempDir : String
deriving Repr, DecidableEq

/-- Model of the observable result of the Installer constructor
(installer.ts lines 25 to 47): the temp directory it computes from the
platform key and the platform contract kind it selects, or the thrown
configuration error for an unrecognized host. -/
def Installer.construct (hostOS runnerTemp userProfile version platformKey : String) :
    Except String (String × PlatformKind) :=
  (selectPlatform hostOS platformKey).map
    (fun k => (initTempDir runnerTemp userProfile platformKey, k))

/-- Model of Installer.shouldTest (installer.ts lines 160 to 169). -/
def Installer.shouldTest (inst : Installer) : Bool :=
  if strIncludes inst.platform.platform "android"
      || strIncludes inst.platform.platform "wasm"
      || strIncludes inst.platform.platform "winrt"
      || strIncludes inst.platform.platform "ios" then
    false
  else
    true

/-- Model of the module list built by Installer.generateScript
(installer.ts lines 149 to 157): the base SDK module, then one module
pushed per entry of the comma-split package string, then the extra
packages of the platform contract appended when present. The final call
into qt-installer-script-base (external to src/) receives exactly this
list. -/
def Installer.generateScriptModules (inst : Installer) (packages : String) : List String :=
  let qtVer : String := qtVerOf inst.version
  let modules : List String := ["qt.qt5." ++ qtVer ++ "." ++ inst.platform.installPlatform]
  let modules : List String :=
    (splitOnChar ',' packages).foldl
      (fun ms entry => ms ++ ["qt.qt5." ++ qtVer ++ "." ++ entry]) modules
  match inst.platform.extraPackages with
  | some extra => modules ++ extra
  | none => modules

/-- Modelled from the spec: the version fragment formula of section 4.4,
the major component followed by the minor component with the dot
removed. Stated only to compare against the fragment the code computes
(`qtVerOf`). -/
def specVersionFragment (version : String) : String :=
  match splitOnChar '.' version with
  | major :: minor :: _ => major ++ minor
  | [only] => only
  | [] => ""

/-- The state of the two cache tiers the orchestrator reads and writes:
`fs` is the set of existing file paths (the filesystem as far as the
shared-cache probe of installer.ts line 59 is concerned), `toolCache`
the entries of the actions local tool cache as (tool, version, platform
key) keys with stored paths. -/
structure World where
  fs : List String
  toolCache : List ((String × String × String) × String)
deriving Repr, DecidableEq

/-- Modelled from the spec: the external actions tool-cache collaborator
looks entries up by the (tool, version, key) tuple (tc.find,
installer.ts line 64). -/
def tcFind (entries : List ((String × String × String) × String))
    (tool ver arch : String) : Option String :=
  match entries with
  | [] => none
  | (k, p) :: rest => if k = (tool, ver, arch) then some p else tcFind rest tool ver arch

/-- Modelled from the spec: the canonical stored path the external tool
cache hands back when a directory is cached under (tool, version, key)
(tc.cacheDir, installer.ts line 142). -/
def tcCachePath (tool ver arch : String) : String :=
  pathJoin (pathJoin (pathJoin "/opt/hostedtoolcache" tool) ver) arch

/-- The behaviour of the external collaborators during one run: the
path-resolution function (Node path.resolve) and one success flag per
external process or filesystem step the orchestrator awaits. -/
structure Env where
  resolve : String → String
  qdepInstallOk : Bool
  downloadOk : Bool
  scriptWriteOk : Bool
  installerOk : Bool
  qdepPrfgenOk : Bool
  qmakeCheckOk : Bool

/-- Model of the cache-resolution step of Installer.getQt (installer.ts
lines 56 to 64). Returns the resolved tool path (none on a miss) paired
with whether the local tool cache was consulted: a supplied shared cache
directory short-circuits the local tool cache entirely. -/
def checkCaches (resolve : String → String) (w : World) (inst : Installer)
    (cachedir : String) : Option String × Bool :=
  if cachedir ≠ "" then
    (if pathJoin (pathJoin cachedir "bin") inst.platform.qmakeName ∈ w.fs then
       some (resolve cachedir)
     else none,
     false)
  else
    (tcFind w.toolCache "qt" inst.version inst.platform.platform, true)

/-- Model of Installer.acquireQt (installer.ts lines 118 to 147).
The download (line 120), script write (lines 125 to 126), installer
process (line 127) and qdep preparation (lines 131 to 134) each abort
the pipeline when they fail, all before either cache tier is touched.
On success the installed subtree (which contains bin plus the build
tool, the path probed at line 131) is either moved into the shared
cache directory (line 139) or stored in the local tool cache under the
key (qt, version, platform key) (line 142). The script content and the
extra installer arguments do not influence the modelled cache state. -/
def acquireQt (env : Env) (w : World) (inst : Installer)
    (packages iArgs cachedir : String) : Except String (String × World) :=
  if env.downloadOk = false then .error "unable to download the Qt online installer"
  else if env.scriptWriteOk = false then .error "unable to write the installer script"
  else if env.installerOk = false then .error "the Qt installer exited with a non-zero status"
  else if env.qdepPrfgenOk = false then .error "qdep prfgen failed"
  else if cachedir ≠ "" then
    let movedQmake : String := pathJoin (pathJoin cachedir "bin") inst.platform.qmakeName
    .ok (env.resolve cachedir, { w with fs := movedQmake :: w.fs })
  else
    let res : String := tcCachePath "qt" inst.version inst.platform.platform
    .ok (res,
      { w with toolCache := (("qt", inst.version, inst.platform.platform), res) :: w.toolCache })

/-- The observable outcome of one orchestrator run: success flag and
error, the outputs published via core.setOutput in publication order,
the resulting cache state, the arguments of the runPreInstaller hook
invocations, whether the acquisition pipeline ran, and the resolved
tool root. -/
structure RunResult where
  ok : Bool
  error : Option String
  outputs : List (String × String)
  world : World
  preInstallerCalls : List Bool
  acquisitionRan : Bool
  toolPath : Option String
deriving Repr, DecidableEq

/-- Model of the tail of Installer.getQt (installer.ts lines 75 to 98)
once a tool path is resolved: the qtdir output is published first, then
the qmake smoke test runs (lines 85 to 86, aborting the run when it
fails), then the remaining outputs are published. PATH and environment
exports and the artifact symlink are untracked external side effects. -/
def finishRun (env : Env) (w : World) (inst : Installer) (toolPath : String)
    (pre : List Bool) (acq : Bool) : RunResult :=
  if env.qmakeCheckOk = false then
    { ok := false, error := some "qmake smoke test failed", outputs := [("qtdir", toolPath)],
      world := w, preInstallerCalls := pre, acquisitionRan := acq, toolPath := some toolPath }
  else
    { ok := true, error := none,
      outputs :=
        [("qtdir", toolPath),
         ("make", inst.platform.makeName),
         ("tests", if inst.shouldTest then "true" else "false"),
         ("testflags", inst.platform.testFlags),
         ("installdir", inst.platform.installDirs.2)],
      world := w, preInstallerCalls := pre, acquisitionRan := acq,
      toolPath := some toolPath }

/-- Model of Installer.getQt (installer.ts lines 49 to 98): install qdep
(lines 51 to 53, aborting on failure), resolve the caches (lines 56 to
64), then on a miss run the pre-install hook with false and the
acquisition pipeline, on a hit run the pre-install hook with true, and
finish the run with the resolved tool path. -/
def getQt (env : Env) (w : World) (inst : Installer)
    (packages iArgs cachedir : String) : RunResult :=
  if env.qdepInstallOk = false then
    { ok := false, error := some "failed to install qdep", outputs := [], world := w,
      preInstallerCalls := [], acquisitionRan := false, toolPath := none }
  else
    match (checkCaches env.resolve w inst cachedir).1 with
    | some tp => finishRun env w inst tp [true] false
    | none =>
      match acquireQt env w inst packages iArgs cachedir with
      | .error e =>
        { ok := false, error := some e, outputs := [], world := w,
          preInstallerCalls := [false], acquisitionRan := true, toolPath := none }
      | .ok (tp, wNew) => finishRun env wNew inst tp [false] true

/-- Modelled from the spec: the LinuxPlatform contract for platform key
"linux-gcc_64" (src/linuxplatform.ts is outside src/). The build tool is
"qmake" and the module namespace fragment is "gcc_64", both fixed by the
end-to-end scenario of the spec (module id qt.qt5.5152.gcc_64, published
build tool qmake). The fields the spec leaves open (makeName, testFlags,
install dirs) carry fixed representative values; no theorem depends on
them. -/
def linuxGcc64 : IPlatform :=
  { platform := "linux-gcc_64"
    qmakeName := "qmake"
    makeName := "make"
    installPlatform := "gcc_64"
    extraPackages := some ["qt.tools.qtcreator"]
    testFlags := ""
    installDirs := ("install", "install/Qt") }

/-- Test fixture: an Installer for version 5.15.2 on linux-gcc_64. -/
def instLinux : Installer :=
  { version := "5.15.2", platform := linuxGcc64, tempDir := "/home/actions/temp" }

/-- Test fixture: an environment in which every external step succeeds
and path resolution is the identity. -/
def envAllOk : Env :=
  { resolve := id, qdepInstallOk := true, downloadOk := true, scriptWriteOk := true,
    installerOk := true, qdepPrfgenOk := true, qmakeCheckOk := true }

/-- Test fixture: an environment in which the installer process exits
with a non-zero status. -/
def envInstallerFail : Env :=
  { envAllOk with installerOk := false }

/-- Test fixture: an Installer whose platform key is android_arm64. -/
def instAndroid : Installer :=
  { version := "5.15.2"
    platform := { linuxGcc64 with platform := "android_arm64" }
    tempDir := "/home/actions/temp" }

/-- Test fixture: a world in which the shared cache directory /shared
already holds the build tool under its bin layout. -/
def wShared : World :=
  { fs := ["/shared/bin/qmake"], toolCache := [] }

/-! ### Helper lemmas -/

theorem str_append_empty (s : String) : s ++ "" = s := by
  cases s with
  | mk l =>
    show String.mk (l ++ []) = String.mk l
    rw [List.append_nil]

theorem foldl_push_eq_map {α β : Type} (f : α → β) (l : List α) :
    ∀ init : List β, l.foldl (fun ms e => ms ++ [f e]) init = init ++ l.map f := by
  induction l with
  | nil => intro init; simp
  | cons a as ih =>
    intro init
    simp only [List.foldl_cons, List.map_cons]
    rw [ih]
    simp

/-- The module list of Installer.generateScript decomposes as the base
module, then the mapped caller entries in input order, then the extra
packages of the platform. -/
theorem generateScriptModules_eq (inst : Installer) (packages : String) :
    inst.generateScriptModules packages =
      ("qt.qt5." ++ qtVerOf inst.version ++ "." ++ inst.platform.installPlatform) ::
        ((splitOnChar ',' packages).map
            (fun entry => "qt.qt5." ++ qtVerOf inst.version ++ "." ++ entry) ++
          inst.platform.extraPackages.getD []) := by
  unfold Installer.generateScriptModules
  dsimp only
  rw [foldl_push_eq_map (fun entry => "qt.qt5." ++ qtVerOf inst.version ++ "." ++ entry)]
  cases h : inst.platform.extraPackages with
  | none => simp
  | some extra => simp

theorem finishRun_fields (env : Env) (w : World) (inst : Installer) (tp : String)
    (pre : List Bool) (acq : Bool) :
    (finishRun env w inst tp pre acq).preInstallerCalls = pre ∧
    (finishRun env w inst tp pre acq).acquisitionRan = acq ∧
    (finishRun env w inst tp pre acq).world = w ∧
    (finishRun env w inst tp pre acq).toolPath = some tp := by
  unfold finishRun
  split <;> exact ⟨rfl, rfl, rfl, rfl⟩

/-- When the download, the script write, the installer process or the
qdep preparation fails, the acquisition pipeline aborts with an error. -/
theorem acquireQt_error_of_failure (env : Env) (w : World) (inst : Installer)
    (packages iArgs cachedir : String)
    (hfail : env.downloadOk = false ∨ env.scriptWriteOk = false ∨
             env.installerOk = false ∨ env.qdepPrfgenOk = false) :
    ∃ e, acquireQt env w inst packages iArgs cachedir = .error e := by
  rcases hfail with h | h | h | h <;>
    cases hd : env.downloadOk <;> cases hs : env.scriptWriteOk <;>
      cases hi : env.installerOk <;> cases hq : env.qdepPrfgenOk <;>
        simp_all [acquireQt]

/-! ### Claim theorems -/

/-- C2: when a shared cache directory is supplied and the expected build
tool executable exists at sharedCacheDir/bin, cache resolution returns
the resolved path of the shared cache directory and the local tool cache
is never consulted; when no shared cache directory is supplied and the
local tool cache has no entry under the key (qt, version, platform key),
resolution reports a miss. -/
theorem c2_cache_resolution (resolve : String → String) (w : World) (inst : Installer)
    (cachedir : String) :
    (cachedir ≠ "" →
      pathJoin (pathJoin cachedir "bin") inst.platform.qmakeName ∈ w.fs →
      checkCaches resolve w inst cachedir = (some (resolve cachedir), false)) ∧
    (cachedir = "" →
      tcFind w.toolCache "qt" inst.version inst.platform.platform = none →
      checkCaches resolve w inst cachedir = (none, true)) := by
  constructor
  · intro hc hmem
    simp [checkCaches, hc, hmem]
  · intro hc hfind
    subst hc
    simp [checkCaches, hfind]

/-- Witness for C2: shared-cache hit at /shared with the build tool
present, and a miss with no shared cache directory and an empty local
tool cache. -/
theorem c2_cache_resolution_witness :
    (("/shared" : String) ≠ "" ∧
     pathJoin (pathJoin "/shared" "bin") instLinux.platform.qmakeName ∈ wShared.fs ∧
     checkCaches id wShared instLinux "/shared" = (some "/shared", false)) ∧
    (tcFind (World.mk [] []).toolCache "qt" instLinux.version instLinux.platform.platform = none ∧
     checkCaches id (World.mk [] []) instLinux "" = (none, true)) :=
  ⟨⟨by decide, by decide,
    (c2_cache_resolution id wShared instLinux "/shared").1 (by decide) (by decide)⟩,
   ⟨rfl, (c2_cache_resolution id (World.mk [] []) instLinux "").2 rfl rfl⟩⟩

/-- C4: for every installer state and caller package string, the module
list handed to the script builder is exactly the base SDK module first,
then one module per caller package entry in the order supplied, then the
platform-mandatory extra packages appended last in their fixed order. -/
theorem c4_modules_ordering (inst : Installer) (packages : String) :
    inst.generateScriptModules packages =
      ("qt.qt5." ++ qtVerOf inst.version ++ "." ++ inst.platform.installPlatform) ::
        ((splitOnChar ',' packages).map
            (fun entry => "qt.qt5." ++ qtVerOf inst.version ++ "." ++ entry) ++
          inst.platform.extraPackages.getD []) :=
  generateScriptModules_eq inst packages

/-- C7: the platform contract selection follows the documented mapping
on the host operating system and platform key, and every unrecognized
host aborts construction with the configuration error, producing no
installer state. -/
theorem c7_platform_selection (host key : String) :
    (strIncludes key "android" = true → selectPlatform "linux" key = .ok .android) ∧
    (strIncludes key "android" = false → selectPlatform "linux" key = .ok .linux) ∧
    (strIncludes key "mingw" = true → selectPlatform "win32" key = .ok .mingw) ∧
    (strIncludes key "mingw" = false → selectPlatform "win32" key = .ok .msvc) ∧
    selectPlatform "darwin" key = .ok .macos ∧
    (host ≠ "linux" → host ≠ "win32" → host ≠ "darwin" →
      ∀ runnerTemp userProfile version,
        Installer.construct host runnerTemp userProfile version key =
          .error ("Install platform " ++ host ++ " is not supported by this action")) := by
  refine ⟨?_, ?_, ?_, ?_, ?_, ?_⟩
  · intro h; simp [selectPlatform, h]
  · intro h; simp [selectPlatform, h]
  · intro h; simp [selectPlatform, h]
  · intro h; simp [selectPlatform, h]
  · simp [selectPlatform]
  · intro h1 h2 h3 rT uP v
    simp [Installer.construct, selectPlatform, Except.map, h1, h2, h3]

/-- Witness for C7: the five documented host and key combinations and
an unrecognized host. -/
theorem c7_platform_selection_witness :
    (strIncludes "android_arm64" "android" = true ∧
     selectPlatform "linux" "android_arm64" = .ok .android) ∧
    (strIncludes "linux-gcc_64" "android" = false ∧
     selectPlatform "linux" "linux-gcc_64" = .ok .linux) ∧
    (strIncludes "mingw73_64" "mingw" = true ∧
     selectPlatform "win32" "mingw73_64" = .ok .mingw) ∧
    (strIncludes "msvc2017_64" "mingw" = false ∧
     selectPlatform "win32" "msvc2017_64" = .ok .msvc) ∧
    selectPlatform "darwin" "clang_64" = .ok .macos ∧
    Installer.construct "freebsd" "" "" "5.15.2" "linux-gcc_64" =
      .error ("Install platform " ++ "freebsd" ++ " is not supported by this action") :=
  ⟨⟨by decide, (c7_platform_selection "freebsd" "android_arm64").1 (by decide)⟩,
   ⟨by decide, (c7_platform_selection "freebsd" "linux-gcc_64").2.1 (by decide)⟩,
   ⟨by decide, (c7_platform_selection "freebsd" "mingw73_64").2.2.1 (by decide)⟩,
   ⟨by decide, (c7_platform_selection "freebsd" "msvc2017_64").2.2.2.1 (by decide)⟩,
   (c7_platform_selection "freebsd" "clang_64").2.2.2.2.1,
   (c7_platform_selection "freebsd" "linux-gcc_64").2.2.2.2.2
     (by decide) (by decide) (by decide) "" "" "5.15.2"⟩

/-- C8: shouldTest is false exactly when the platform key contains one
of the substrings android, wasm, winrt or ios; in particular the
platform key android_arm64 gives false and linux-gcc_64 gives true. -/
theorem c8_shouldTest_policy (inst : Installer) :
    (inst.shouldTest = false ↔
      (strIncludes inst.platform.platform "android" = true ∨
       strIncludes inst.platform.platform "wasm" = true ∨
       strIncludes inst.platform.platform "winrt" = true ∨
       strIncludes inst.platform.platform "ios" = true)) ∧
    (inst.platform.platform = "android_arm64" → inst.shouldTest = false) ∧
    (inst.platform.platform = "linux-gcc_64" → inst.shouldTest = true) := by
  refine ⟨?_, ?_, ?_⟩
  · unfold Installer.shouldTest
    split
    · next h =>
      simp_all [Bool.or_eq_true]
      tauto
    · next h => simp_all [Bool.or_eq_true]
  · intro h
    unfold Installer.shouldTest
    rw [h]
    decide
  · intro h
    unfold Installer.shouldTest
    rw [h]
    decide

/-- Witness for C8: the android_arm64 installer publishes no tests and
the linux-gcc_64 installer publishes tests. -/
theorem c8_shouldTest_policy_witness :
    instAndroid.platform.platform = "android_arm64" ∧ instAndroid.shouldTest = false ∧
    instLinux.platform.platform = "linux-gcc_64" ∧ instLinux.shouldTest = true :=
  ⟨rfl, (c8_shouldTest_policy instAndroid).2.1 rfl,
   rfl, (c8_shouldTest_policy instLinux).2.2 rfl⟩

/-- C10: with RUNNER_TEMP unset, the temp-root fallback compares the
requested platform key, so for every platform key other than the
literals win32 and darwin it resolves to /home/actions/temp regardless
of USERPROFILE, and the constructor on any host passes exactly the
platform key into this fallback. -/
theorem c10_tempdir_fallback (userProfile pk version : String)
    (h1 : pk ≠ "win32") (h2 : pk ≠ "darwin") :
    initTempDir "" userProfile pk = "/home/actions/temp" ∧
    (∀ host r, Installer.construct host "" userProfile version pk = .ok r →
      r.1 = "/home/actions/temp") := by
  have base : initTempDir "" userProfile pk = "/home/actions/temp" := by
    simp [initTempDir, h1, h2, pathJoin]
  refine ⟨base, ?_⟩
  intro host r h
  unfold Installer.construct at h
  cases hsel : selectPlatform host pk with
  | error e =>
    rw [hsel] at h
    simp [Except.map] at h
  | ok k =>
    rw [hsel] at h
    simp only [Except.map, Except.ok.injEq] at h
    rw [← h]
    exact base

/-- Witness for C10: the real platform key linux-gcc_64 falls back to
/home/actions/temp even with a Windows style USERPROFILE set, and so
does the tempDir the constructor computes on a linux host. -/
theorem c10_tempdir_fallback_witness :
    ("linux-gcc_64" : String) ≠ "win32" ∧ ("linux-gcc_64" : String) ≠ "darwin" ∧
    initTempDir "" "C:\\Users\\runner" "linux-gcc_64" = "/home/actions/temp" ∧
    (("/home/actions/temp", PlatformKind.linux) : String × PlatformKind).1 =
      "/home/actions/temp" :=
  ⟨by decide, by decide,
   (c10_tempdir_fallback "C:\\Users\\runner" "linux-gcc_64" "5.15.2"
     (by decide) (by decide)).1,
   (c10_tempdir_fallback "C:\\Users\\runner" "linux-gcc_64" "5.15.2"
     (by decide) (by decide)).2 "linux" ("/home/actions/temp", PlatformKind.linux)
     rfl⟩

/-- C3 counterexample: at version 5.15.2 the fragment the code computes
(every dot removed, 5152) differs from the claimed formula major
followed by minor with the dot removed (515), so the generated fragment
does not match the formula for every version string. -/
theorem c3_version_fragment_counterexample :
    qtVerOf "5.15.2" = "5152" ∧
    specVersionFragment "5.15.2" = "515" ∧
    qtVerOf "5.15.2" ≠ specVersionFragment "5.15.2" := by
  decide

/-- C3 amended: the generated version fragment is the version string
with every dot removed, so a three-component version major.minor.patch
yields the concatenation of all three components (5.15.2 yields 5152),
and the end-to-end scenario version 5.15.2 with platform fragment
gcc_64 builds the base module id qt.qt5.5152.gcc_64. -/
theorem c3_version_fragment_amended (a b c : String) (inst : Installer)
    (ha : '.' ∉ a.data) (hb : '.' ∉ b.data) (hc : '.' ∉ c.data) :
    qtVerOf (a ++ "." ++ b ++ "." ++ c) = a ++ b ++ c ∧
    (inst.version = "5.15.2" → inst.platform.installPlatform = "gcc_64" →
      (inst.generateScriptModules "").head? = some "qt.qt5.5152.gcc_64") := by
  constructor
  · apply String.ext
    show ((a ++ "." ++ b ++ "." ++ c).data.filter (fun ch => ch != '.')) = (a ++ b ++ c).data
    have keep : ∀ s : String, '.' ∉ s.data → s.data.filter (fun ch => ch != '.') = s.data := by
      intro s hs
      apply List.filter_eq_self.mpr
      intro x hx
      simp only [bne_iff_ne, ne_eq]
      intro hxeq
      exact hs (hxeq ▸ hx)
    simp only [String.data_append]
    show (a.data ++ ['.'] ++ b.data ++ ['.'] ++ c.data).filter (fun ch => ch != '.') = _
    simp only [List.filter_append, keep a ha, keep b hb, keep c hc]
    simp
  · intro hv hp
    rw [generateScriptModules_eq, List.head?_cons, hv, hp]
    decide

/-- Witness for C3 amended: the components 5, 15 and 2 concatenate to
the fragment 5152 and the scenario installer builds the base module
qt.qt5.5152.gcc_64. -/
theorem c3_version_fragment_amended_witness :
    ('.' ∉ ("5" : String).data) ∧ ('.' ∉ ("15" : String).data) ∧
    ('.' ∉ ("2" : String).data) ∧
    qtVerOf ("5" ++ "." ++ "15" ++ "." ++ "2") = "5" ++ "15" ++ "2" ∧
    (instLinux.generateScriptModules "").head? = some "qt.qt5.5152.gcc_64" :=
  ⟨by decide, by decide, by decide,
   (c3_version_fragment_amended "5" "15" "2" instLinux
     (by decide) (by decide) (by decide)).1,
   (c3_version_fragment_amended "5" "15" "2" instLinux
     (by decide) (by decide) (by decide)).2 rfl rfl⟩

/-- C9: for the empty caller package string the generated module list is
the base module followed by a second module with an empty package
suffix, then the extra packages; in general every empty segment of the
comma-split package string contributes such an empty-suffix module. -/
theorem c9_empty_package_entry (inst : Installer) (packages : String) :
    (inst.generateScriptModules "" =
      ("qt.qt5." ++ qtVerOf inst.version ++ "." ++ inst.platform.installPlatform) ::
        ("qt.qt5." ++ qtVerOf inst.version ++ ".") ::
        inst.platform.extraPackages.getD []) ∧
    ("" ∈ splitOnChar ',' packages →
      ("qt.qt5." ++ qtVerOf inst.version ++ ".") ∈ inst.generateScriptModules packages) := by
  constructor
  · rw [generateScriptModules_eq]
    show _ :: ((splitOnChar ',' "").map _ ++ _) = _
    have hsplit : splitOnChar ',' "" = [""] := rfl
    rw [hsplit]
    simp [str_append_empty]
  · intro hmem
    rw [generateScriptModules_eq]
    apply List.mem_cons_of_mem
    apply List.mem_append_left
    have hmap := List.mem_map_of_mem
      (fun entry => "qt.qt5." ++ qtVerOf inst.version ++ "." ++ entry) hmem
    dsimp only at hmap
    rwa [str_append_empty] at hmap

/-- Witness for C9: the package string with an empty middle segment
contributes the empty-suffix module, and the empty package string gives
the two-module-plus-extras list for the linux installer. -/
theorem c9_empty_package_entry_witness :
    (instLinux.generateScriptModules "" =
      ("qt.qt5." ++ qtVerOf instLinux.version ++ "." ++ instLinux.platform.installPlatform) ::
        ("qt.qt5." ++ qtVerOf instLinux.version ++ ".") ::
        instLinux.platform.extraPackages.getD []) ∧
    ("" ∈ splitOnChar ',' "qtcharts,,qtlottie") ∧
    ("qt.qt5." ++ qtVerOf instLinux.version ++ "." ∈
      instLinux.generateScriptModules "qtcharts,,qtlottie") :=
  ⟨(c9_empty_package_entry instLinux "qtcharts,,qtlottie").1,
   by decide,
   (c9_empty_package_entry instLinux "qtcharts,,qtlottie").2 (by decide)⟩

/-- C5: whenever the run reaches cache resolution, exactly one of cache
hit and fresh acquisition occurs: on a hit the pre-install hook runs
once with true and the acquisition pipeline does not run, on a miss the
pre-install hook runs once with false and then the acquisition pipeline
runs. -/
theorem c5_decision_exclusive (env : Env) (w : World) (inst : Installer)
    (packages iArgs cachedir : String) (hpip : env.qdepInstallOk = true) :
    ((checkCaches env.resolve w inst cachedir).1 = none →
      (getQt env w inst packages iArgs cachedir).preInstallerCalls = [false] ∧
      (getQt env w inst packages iArgs cachedir).acquisitionRan = true) ∧
    (∀ tp, (checkCaches env.resolve w inst cachedir).1 = some tp →
      (getQt env w inst packages iArgs cachedir).preInstallerCalls = [true] ∧
      (getQt env w inst packages iArgs cachedir).acquisitionRan = false) ∧
    (((getQt env w inst packages iArgs cachedir).preInstallerCalls = [false] ∧
      (getQt env w inst packages iArgs cachedir).acquisitionRan = true) ∨
     ((getQt env w inst packages iArgs cachedir).preInstallerCalls = [true] ∧
      (getQt env w inst packages iArgs cachedir).acquisitionRan = false)) := by
  have hmiss : (checkCaches env.resolve w inst cachedir).1 = none →
      (getQt env w inst packages iArgs cachedir).preInstallerCalls = [false] ∧
      (getQt env w inst packages iArgs cachedir).acquisitionRan = true := by
    intro h
    unfold getQt
    rw [hpip, h]
    cases hacq : acquireQt env w inst packages iArgs cachedir with
    | error e => simp [hacq]
    | ok res =>
      rcases res with ⟨tp, wNew⟩
      simp only [hacq]
      have hf := finishRun_fields env wNew inst tp [false] true
      exact ⟨by simp [hf.1], by simp [hf.2.1]⟩
  have hhit : ∀ tp, (checkCaches env.resolve w inst cachedir).1 = some tp →
      (getQt env w inst packages iArgs cachedir).preInstallerCalls = [true] ∧
      (getQt env w inst packages iArgs cachedir).acquisitionRan = false := by
    intro tp h
    unfold getQt
    rw [hpip, h]
    have hf := finishRun_fields env w inst tp [true] false
    exact ⟨by simp [hf.1], by simp [hf.2.1]⟩
  refine ⟨hmiss, hhit, ?_⟩
  cases hcc : (checkCaches env.resolve w inst cachedir).1 with
  | none => exact Or.inl (hmiss hcc)
  | some tp => exact Or.inr (hhit tp hcc)

/-- Witness for C5: on the empty cache the run is a miss, the hook runs
with false and acquisition runs; exactly one decision occurs. -/
theorem c5_decision_exclusive_witness :
    envAllOk.qdepInstallOk = true ∧
    ((getQt envAllOk (World.mk [] []) instLinux "" "" "").preInstallerCalls = [false] ∧
     (getQt envAllOk (World.mk [] []) instLinux "" "" "").acquisitionRan = true) ∧
    (((getQt envAllOk (World.mk [] []) instLinux "" "" "").preInstallerCalls = [false] ∧
      (getQt envAllOk (World.mk [] []) instLinux "" "" "").acquisitionRan = true) ∨
     ((getQt envAllOk (World.mk [] []) instLinux "" "" "").preInstallerCalls = [true] ∧
      (getQt envAllOk (World.mk [] []) instLinux "" "" "").acquisitionRan = false)) :=
  ⟨rfl,
   (c5_decision_exclusive envAllOk (World.mk [] []) instLinux "" "" "" rfl).1 rfl,
   (c5_decision_exclusive envAllOk (World.mk [] []) instLinux "" "" "" rfl).2.2⟩

/-- C6: when the run reaches acquisition and the download, the script
write, the installer process or the qdep preparation fails, the run
aborts with an error, neither cache tier is written, no output is
published and no tool root is produced. -/
theorem c6_failure_no_cache_write (env : Env) (w : World) (inst : Installer)
    (packages iArgs cachedir : String)
    (hpip : env.qdepInstallOk = true)
    (hmiss : (checkCaches env.resolve w inst cachedir).1 = none)
    (hfail : env.downloadOk = false ∨ env.scriptWriteOk = false ∨
             env.installerOk = false ∨ env.qdepPrfgenOk = false) :
    (getQt env w inst packages iArgs cachedir).ok = false ∧
    (getQt env w inst packages iArgs cachedir).world = w ∧
    (getQt env w inst packages iArgs cachedir).outputs = [] ∧
    (getQt env w inst packages iArgs cachedir).toolPath = none := by
  obtain ⟨e, he⟩ := acquireQt_error_of_failure env w inst packages iArgs cachedir hfail
  unfold getQt
  rw [hpip, hmiss, he]
  exact ⟨rfl, rfl, rfl, rfl⟩

/-- Witness for C6: the installer process failing on an empty cache
leaves both cache tiers empty and publishes nothing. -/
theorem c6_failure_no_cache_write_witness :
    envInstallerFail.qdepInstallOk = true ∧
    (checkCaches envInstallerFail.resolve (World.mk [] []) instLinux "").1 = none ∧
    envInstallerFail.installerOk = false ∧
    (getQt envInstallerFail (World.mk [] []) instLinux "" "" "").ok = false ∧
    (getQt envInstallerFail (World.mk [] []) instLinux "" "" "").world = World.mk [] [] ∧
    (getQt envInstallerFail (World.mk [] []) instLinux "" "" "").outputs = [] ∧
    (getQt envInstallerFail (World.mk [] []) instLinux "" "" "").toolPath = none := by
  have h := c6_failure_no_cache_write envInstallerFail (World.mk [] []) instLinux "" "" ""
    rfl rfl (Or.inr (Or.inr (Or.inl rfl)))
  exact ⟨rfl, rfl, rfl, h.1, h.2.1, h.2.2.1, h.2.2.2⟩

/-- C1: from an empty cache, a run with every external step succeeding
performs a fresh acquisition that stores the installed subtree exactly
where resolution looks it up, so a second identical run is a cache hit
that skips the acquisition pipeline and publishes the same tool root. -/
theorem c1_pipeline_idempotent (env : Env) (inst : Installer) (packages iArgs cachedir : String)
    (h1 : env.qdepInstallOk = true) (h2 : env.downloadOk = true) (h3 : env.scriptWriteOk = true)
    (h4 : env.installerOk = true) (h5 : env.qdepPrfgenOk = true) (h6 : env.qmakeCheckOk = true) :
    (getQt env (World.mk [] []) inst packages iArgs cachedir).ok = true ∧
    (getQt env (World.mk [] []) inst packages iArgs cachedir).acquisitionRan = true ∧
    (getQt env (getQt env (World.mk [] []) inst packages iArgs cachedir).world inst
        packages iArgs cachedir).acquisitionRan = false ∧
    (getQt env (getQt env (World.mk [] []) inst packages iArgs cachedir).world inst
        packages iArgs cachedir).preInstallerCalls = [true] ∧
    (getQt env (getQt env (World.mk [] []) inst packages iArgs cachedir).world inst
        packages iArgs cachedir).toolPath =
      (getQt env (World.mk [] []) inst packages iArgs cachedir).toolPath ∧
    (cachedir = "" →
      (getQt env (World.mk [] []) inst packages iArgs cachedir).world.toolCache =
        [(("qt", inst.version, inst.platform.platform),
          tcCachePath "qt" inst.version inst.platform.platform)]) ∧
    (cachedir ≠ "" →
      pathJoin (pathJoin cachedir "bin") inst.platform.qmakeName ∈
        (getQt env (World.mk [] []) inst packages iArgs cachedir).world.fs) := by
  by_cases hcd : cachedir = ""
  · subst hcd
    simp [getQt, checkCaches, acquireQt, finishRun, tcFind, h1, h2, h3, h4, h5, h6]
  · simp [getQt, checkCaches, acquireQt, finishRun, tcFind, h1, h2, h3, h4, h5, h6, hcd]

/-- Witness for C1: the concrete scenario request on an empty cache,
using the local tool cache tier. -/
theorem c1_pipeline_idempotent_witness :
    envAllOk.qdepInstallOk = true ∧
    ((getQt envAllOk (World.mk [] []) instLinux "" "" "").ok = true ∧
     (getQt envAllOk (World.mk [] []) instLinux "" "" "").acquisitionRan = true ∧
     (getQt envAllOk (getQt envAllOk (World.mk [] []) instLinux "" "" "").world instLinux
        "" "" "").acquisitionRan = false ∧
     (getQt envAllOk (getQt envAllOk (World.mk [] []) instLinux "" "" "").world instLinux
        "" "" "").preInstallerCalls = [true] ∧
     (getQt envAllOk (getQt envAllOk (World.mk [] []) instLinux "" "" "").world instLinux
        "" "" "").toolPath =
       (getQt envAllOk (World.mk [] []) instLinux "" "" "").toolPath ∧
     (("" : String) = "" →
       (getQt envAllOk (World.mk [] []) instLinux "" "" "").world.toolCache =
         [(("qt", instLinux.version, instLinux.platform.platform),
           tcCachePath "qt" instLinux.version instLinux.platform.platform)]) ∧
     (("" : String) ≠ "" →
       pathJoin (pathJoin "" "bin") instLinux.platform.qmakeName ∈
         (getQt envAllOk (World.mk [] []) instLinux "" "" "").world.fs)) :=
  ⟨rfl, c1_pipeline_idempotent envAllOk instLinux "" "" "" rfl rfl rfl rfl rfl rfl⟩

end SetupQt
